import Mathlib

/-!
Verification development for a small HTTP backend (`src/main.py`): a heuristic
chat endpoint and a plan-builder endpoint.  The Python handlers are shallowly
embedded as pure Lean functions; the document store (`create_document` from the
`database` module, not part of the sources) is modelled as an explicit function
parameter returning either an assigned identifier or a failure, and the
persistence attempts of a run are recorded in an explicit trace so that
"no persistence attempt" is expressible.
-/

namespace Backend

deriving instance DecidableEq for Except

/-- `str.strip()` on the characters of a string: drop whitespace from both
ends.  (Python strips the Unicode whitespace set; the messages of this
program only involve ASCII whitespace, where `Char.isWhitespace` agrees.) -/
def pyStrip (s : String) : String :=
  ⟨((s.data.dropWhile Char.isWhitespace).reverse.dropWhile Char.isWhitespace).reverse⟩

/-- `str.lower()`: lower-case every character. -/
def pyLower (s : String) : String :=
  ⟨s.data.map Char.toLower⟩

/-- `len(s)` for a Python string: number of code points. -/
def pyLen (s : String) : Nat :=
  s.data.length

/-- Python's `needle in hay` on character lists: `needle` occurs contiguously
in `hay` (the empty needle always occurs). -/
def listOccursIn (needle : List Char) : List Char → Bool
  | [] => needle.isEmpty
  | c :: rest => needle.isPrefixOf (c :: rest) || listOccursIn needle rest

/-- Python's `k in s` substring test on strings. -/
def strOccursIn (k s : String) : Bool :=
  listOccursIn k.data s.data

/-- `any(k in lower for k in ks)`. -/
def anyKeyword (lower : String) (ks : List String) : Bool :=
  ks.any (fun k => strOccursIn k lower)

/-- A raised `HTTPException(status_code, detail)`. -/
structure HTTPError where
  status_code : Nat
  detail : String
deriving DecidableEq

/-- One entry of a chat history (spec §3 `ChatMessage`): a role string
("user" / "assistant") and a content string. -/
structure ChatMessage where
  role : String
  content : String
deriving DecidableEq

/-- Spec §3 `ChatRequest`: a message and an optional history. -/
structure ChatRequest where
  message : String
  history : Option (List ChatMessage) := none
deriving DecidableEq

/-- Spec §3 `ChatResponse`. -/
structure ChatResponse where
  reply : String
deriving DecidableEq

/-- The four canned replies of `chat_endpoint` (src/main.py lines 72-85). -/
def greetingReply : String :=
  "Hey! I'm your AI builder. Tell me what you want to create."

def buildReply : String :=
  "Great! Share your idea, target audience, and key features. I can draft a plan and spin up a starter in minutes."

def pricingReply : String :=
  "This demo is free. In production, cost depends on features and integrations."

def defaultReply : String :=
  "Got it. I can help you plan features, pages, and backend endpoints. Use the planner below to generate a build plan."

def greetingKeys : List String := ["hello", "hi", "hey"]

def buildKeys : List String := ["website", "app", "build", "create"]

def pricingKeys : List String := ["pricing", "cost", "price"]

/-- The if/elif keyword cascade of `chat_endpoint` (src/main.py lines 71-85). -/
def selectReply (lower : String) : String :=
  if anyKeyword lower greetingKeys then greetingReply
  else if anyKeyword lower buildKeys then buildReply
  else if anyKeyword lower pricingKeys then pricingReply
  else defaultReply

/-- `next((m.content for m in reversed(history) if m.role == "user"), None)`:
the content of the last entry whose role is "user", if any. -/
def lastUserContent : List ChatMessage → Option String
  | [] => none
  | m :: rest =>
    match lastUserContent rest with
    | some c => some c
    | none => if m.role = "user" then some m.content else none

/-- The appended history note `f" Also noted: '{last_user}'."`. -/
def noteFor (c : String) : String :=
  " Also noted: '" ++ c ++ "'."

/-- The history-augmentation step of `chat_endpoint` (src/main.py lines
87-91): `if req.history and len(req.history) > 0:` then look up the last
user content; `if last_user and last_user != user_msg and len(last_user)
< 120:` append the note.  Python's truthiness of `last_user` is
non-`None` and non-empty. -/
def augmentedReply (reply user_msg : String) (history : Option (List ChatMessage)) : String :=
  match history with
  | none => reply
  | some hist =>
    if hist.length > 0 then
      match lastUserContent hist with
      | none => reply
      | some last_user =>
        if last_user ≠ "" ∧ last_user ≠ user_msg ∧ pyLen last_user < 120 then
          reply ++ noteFor last_user
        else reply
    else reply

/-- `chat_endpoint` (src/main.py lines 63-93).  `req.message or ""` is the
identity on strings (a falsy string is already `""`), so it is inlined. -/
def chat_endpoint (req : ChatRequest) : Except HTTPError ChatResponse :=
  let user_msg := pyStrip req.message
  if user_msg = "" then
    Except.error ⟨400, "Message cannot be empty"⟩
  else
    Except.ok ⟨augmentedReply (selectReply (pyLower user_msg)) user_msg req.history⟩

/-- One endpoint descriptor inside the plan's backend block. -/
structure EndpointDesc where
  route : String
  method : String
  desc : String
deriving DecidableEq

/-- The plan's `frontend` block. -/
structure FrontendBlock where
  stack : List String
  pages : List String
  components : List String
  api_usage : List String
deriving DecidableEq

/-- The plan's `backend` block. -/
structure BackendBlock where
  stack : List String
  endpoints : List EndpointDesc
  collections : List String
deriving DecidableEq

/-- Spec §3 `Plan`: the fixed-shape plan document of src/main.py lines 104-126. -/
structure Plan where
  summary : String
  frontend : FrontendBlock
  backend : BackendBlock
  features : List String
  next_steps : List String
deriving DecidableEq

/-- Spec §3 `PlanRequest`: an idea and an optional feature list. -/
structure PlanRequest where
  idea : String
  features : Option (List String) := none
deriving DecidableEq

/-- Spec §3 `PlanResponse`. -/
structure PlanResponse where
  id : String
  status : String
  plan : Plan
deriving DecidableEq

/-- Spec §3 Generation record `{idea, features, status, plan}`
(`Generation(idea=idea, features=features, status="planned", plan=plan)`). -/
structure Generation where
  idea : String
  features : List String
  status : String
  plan : Plan
deriving DecidableEq

/-- Outcome of the document store's `create_document` call: an assigned
identifier, or any raised error. -/
inductive DBOutcome where
  | ok (id : String)
  | err
deriving DecidableEq

/-- The plan dictionary literal of src/main.py lines 104-126. -/
def mkPlan (idea : String) (features : List String) : Plan :=
  { summary := "Plan to build: " ++ idea
    frontend :=
      { stack := ["Vite + React", "TailwindCSS", "Lucide Icons", "Framer Motion"]
        pages := ["Home/Hero with 3D Spline", "Features", "Chatbot", "Dashboard (optional)"]
        components := ["Navbar", "Hero", "Chatbot", "Planner", "Footer"]
        api_usage := ["POST /api/chat", "POST /api/plan"] }
    backend :=
      { stack := ["FastAPI", "MongoDB"]
        endpoints :=
          [⟨"/api/chat", "POST", "Conversational helper"⟩,
           ⟨"/api/plan", "POST", "Generate build plan and store"⟩]
        collections := ["generation"] }
    features := features
    next_steps :=
      ["Review and tweak the plan",
       "Auto-generate starter components",
       "Iterate with the chatbot for refinements"] }

/-- A run of the plan endpoint: its HTTP result together with the trace of
Generation documents whose persistence was attempted. -/
structure PlanRun where
  result : Except HTTPError PlanResponse
  attempts : List Generation
deriving DecidableEq

/-- `plan_endpoint` (src/main.py lines 95-136), with the store passed as a
parameter.  `req.idea or ""` is the identity on strings and is inlined;
`req.features or []` maps both absent and empty feature lists to `[]`.
The `try/except` around `create_document` becomes a match on the store's
outcome, with `"no-db"` substituted on failure; `str(inserted_id)` is the
identity since the modelled identifier is already a string. -/
def plan_run (store : Generation → DBOutcome) (req : PlanRequest) : PlanRun :=
  let idea := pyStrip req.idea
  if idea = "" then
    ⟨Except.error ⟨400, "Idea is required"⟩, []⟩
  else
    let features := req.features.getD []
    let plan := mkPlan idea features
    let gen : Generation := ⟨idea, features, "planned", plan⟩
    let inserted_id :=
      match store gen with
      | DBOutcome.ok i => i
      | DBOutcome.err => "no-db"
    ⟨Except.ok ⟨inserted_id, "planned", plan⟩, [gen]⟩

/-- The HTTP response of `plan_endpoint`. -/
def plan_endpoint (store : Generation → DBOutcome) (req : PlanRequest) :
    Except HTTPError PlanResponse :=
  (plan_run store req).result

/-- The Generation document built on src/main.py line 130 for a request whose
trimmed idea is non-empty. -/
def planGen (req : PlanRequest) : Generation :=
  ⟨pyStrip req.idea, req.features.getD [], "planned",
   mkPlan (pyStrip req.idea) (req.features.getD [])⟩

/-- A non-empty string stays non-empty after appending. -/
lemma append_ne_empty (a b : String) (h : a ≠ "") : a ++ b ≠ "" := fun hab =>
  h (String.ext (by
    have hd := congrArg String.data hab
    rw [String.data_append] at hd
    exact (List.append_eq_nil.mp hd).1))

/-- Every branch of the keyword cascade yields a non-empty reply. -/
lemma selectReply_ne_empty (lower : String) : selectReply lower ≠ "" := by
  unfold selectReply
  split
  · decide
  · split
    · decide
    · split
      · decide
      · decide

/-- History augmentation preserves non-emptiness of the reply. -/
lemma augmentedReply_ne_empty (reply m : String) (history : Option (List ChatMessage))
    (h : reply ≠ "") : augmentedReply reply m history ≠ "" := by
  unfold augmentedReply
  split
  · exact h
  · split
    · split
      · exact h
      · split
        · exact append_ne_empty _ _ h
        · exact h
    · exact h

/-- A history with a latest user entry is non-empty. -/
lemma lastUserContent_pos {hist : List ChatMessage} {c : String}
    (h : lastUserContent hist = some c) : hist.length > 0 := by
  cases hist with
  | nil => simp [lastUserContent] at h
  | cons m rest => simp

/-- When the latest user content is non-empty, differs from the current
message and is short, the note is appended. -/
lemma augmentedReply_append {hist : List ChatMessage} {c reply m : String}
    (hc : lastUserContent hist = some c) (h1 : c ≠ "") (h2 : c ≠ m)
    (h3 : pyLen c < 120) :
    augmentedReply reply m (some hist) = reply ++ noteFor c := by
  simp [augmentedReply, lastUserContent_pos hc, hc, h1, h2, h3]

/-- When no eligible latest user content exists, the reply is unchanged. -/
lemma augmentedReply_base {reply m : String} {history : Option (List ChatMessage)}
    (h : ∀ c, lastUserContent (history.getD []) = some c →
      ¬(c ≠ "" ∧ c ≠ m ∧ pyLen c < 120)) :
    augmentedReply reply m history = reply := by
  cases history with
  | none => rfl
  | some hist =>
    rcases hlu : lastUserContent hist with _ | c
    · simp [augmentedReply, hlu]
    · have hnc := h c (by simpa using hlu)
      simp [augmentedReply, hlu, hnc]

/-- Unfolding of `chat_endpoint` on a message that is non-empty after
trimming. -/
lemma chat_endpoint_ok {req : ChatRequest} (h : pyStrip req.message ≠ "") :
    chat_endpoint req =
      Except.ok ⟨augmentedReply (selectReply (pyLower (pyStrip req.message)))
        (pyStrip req.message) req.history⟩ := by
  unfold chat_endpoint
  rw [if_neg h]

/-- Unfolding of `plan_run` on an idea that is non-empty after trimming. -/
lemma plan_run_eq (store : Generation → DBOutcome) (req : PlanRequest)
    (h : pyStrip req.idea ≠ "") :
    plan_run store req =
      ⟨Except.ok ⟨(match store (planGen req) with
          | DBOutcome.ok i => i
          | DBOutcome.err => "no-db"), "planned",
          mkPlan (pyStrip req.idea) (req.features.getD [])⟩,
       [planGen req]⟩ := by
  simp [plan_run, planGen, h]

/-- C1: for every PlanRequest with non-empty (after trimming) idea, the plan
endpoint still returns a PlanResponse when the persistence call raises: the
failure is absorbed, the response id is the literal "no-db", and the returned
plan is the same plan a succeeding store would have produced. -/
theorem plan_persistence_failure_absorbed (req : PlanRequest)
    (h : pyStrip req.idea ≠ "") :
    ∃ r, plan_endpoint (fun _ => DBOutcome.err) req = Except.ok r ∧
      r.id = "no-db" ∧
      ∀ i : String, ∃ r2, plan_endpoint (fun _ => DBOutcome.ok i) req = Except.ok r2 ∧
        r2.plan = r.plan := by
  refine ⟨⟨"no-db", "planned", mkPlan (pyStrip req.idea) (req.features.getD [])⟩,
    ?_, rfl, ?_⟩
  · show (plan_run _ req).result = _
    rw [plan_run_eq _ req h]
  · intro i
    refine ⟨⟨i, "planned", mkPlan (pyStrip req.idea) (req.features.getD [])⟩, ?_, rfl⟩
    show (plan_run _ req).result = _
    rw [plan_run_eq _ req h]

/-- Witness for C1 at a concrete request. -/
theorem plan_persistence_failure_absorbed_witness :
    ∃ r, plan_endpoint (fun _ => DBOutcome.err) ⟨"todo app", some ["auth"]⟩ = Except.ok r ∧
      r.id = "no-db" ∧
      ∀ i : String, ∃ r2,
        plan_endpoint (fun _ => DBOutcome.ok i) ⟨"todo app", some ["auth"]⟩ = Except.ok r2 ∧
        r2.plan = r.plan :=
  plan_persistence_failure_absorbed ⟨"todo app", some ["auth"]⟩ (by decide)

/-- C2 counterexample: for the request with idea " x " (non-empty but not
trimmed), the endpoint succeeds, yet the summary is built from the trimmed
idea "x", not from " x " as the claim states. -/
theorem plan_raw_summary_cex :
    (" x " : String) ≠ "" ∧
    plan_endpoint (fun _ => DBOutcome.ok "42") ⟨" x ", none⟩ =
      Except.ok ⟨"42", "planned", mkPlan "x" []⟩ ∧
    (mkPlan "x" []).summary ≠ "Plan to build: " ++ " x " ∧
    (mkPlan "x" []).summary = "Plan to build: x" := by decide

/-- C2 (amended): for every PlanRequest whose idea is non-empty after
trimming, the endpoint returns status "planned", a summary equal to
"Plan to build: " followed by the trimmed idea, and the features echoed
exactly (empty when omitted). -/
theorem plan_response_shape (store : Generation → DBOutcome) (req : PlanRequest)
    (h : pyStrip req.idea ≠ "") :
    ∃ r, plan_endpoint store req = Except.ok r ∧ r.status = "planned" ∧
      r.plan.summary = "Plan to build: " ++ pyStrip req.idea ∧
      r.plan.features = req.features.getD [] := by
  refine ⟨⟨(match store (planGen req) with
      | DBOutcome.ok i => i
      | DBOutcome.err => "no-db"), "planned",
      mkPlan (pyStrip req.idea) (req.features.getD [])⟩, ?_, rfl, rfl, rfl⟩
  show (plan_run store req).result = _
  rw [plan_run_eq store req h]

/-- Witness for C2 at a concrete request. -/
theorem plan_response_shape_witness :
    ∃ r, plan_endpoint (fun _ => DBOutcome.ok "7") ⟨" todo ", some ["a", "b"]⟩ =
        Except.ok r ∧
      r.status = "planned" ∧
      r.plan.summary = "Plan to build: " ++ pyStrip " todo " ∧
      r.plan.features = (some ["a", "b"]).getD [] :=
  plan_response_shape (fun _ => DBOutcome.ok "7") ⟨" todo ", some ["a", "b"]⟩ (by decide)

/-- C3: an empty-after-trimming message yields the 400 client error, and any
other message yields a ChatResponse with a non-empty reply. -/
theorem chat_message_validation (req : ChatRequest) :
    (pyStrip req.message = "" →
      chat_endpoint req = Except.error ⟨400, "Message cannot be empty"⟩) ∧
    (pyStrip req.message ≠ "" →
      ∃ r, chat_endpoint req = Except.ok r ∧ r.reply ≠ "") := by
  constructor
  · intro h
    unfold chat_endpoint
    rw [if_pos h]
  · intro h
    refine ⟨_, chat_endpoint_ok h, ?_⟩
    exact augmentedReply_ne_empty _ _ _ (selectReply_ne_empty _)

/-- Witness for C3 at concrete requests. -/
theorem chat_message_validation_witness :
    chat_endpoint ⟨"   ", none⟩ = Except.error ⟨400, "Message cannot be empty"⟩ ∧
    ∃ r, chat_endpoint ⟨"hi", none⟩ = Except.ok r ∧ r.reply ≠ "" :=
  ⟨(chat_message_validation ⟨"   ", none⟩).1 (by decide),
   (chat_message_validation ⟨"hi", none⟩).2 (by decide)⟩

/-- C4: the keyword cascade tests greeting words first, then build-intent
words, then pricing words, then the generic default, and the first match
wins; a message with both a greeting and a build keyword gets the greeting
reply, as does the concrete message "hi, I want to build an app". -/
theorem chat_keyword_priority :
    (∀ l, anyKeyword l greetingKeys = true → selectReply l = greetingReply) ∧
    (∀ l, anyKeyword l greetingKeys = false → anyKeyword l buildKeys = true →
      selectReply l = buildReply) ∧
    (∀ l, anyKeyword l greetingKeys = false → anyKeyword l buildKeys = false →
      anyKeyword l pricingKeys = true → selectReply l = pricingReply) ∧
    (∀ l, anyKeyword l greetingKeys = false → anyKeyword l buildKeys = false →
      anyKeyword l pricingKeys = false → selectReply l = defaultReply) ∧
    (∀ msg, anyKeyword (pyLower (pyStrip msg)) greetingKeys = true →
      chat_endpoint ⟨msg, none⟩ = Except.ok ⟨greetingReply⟩) ∧
    (anyKeyword (pyLower (pyStrip "hi, I want to build an app")) buildKeys = true ∧
      chat_endpoint ⟨"hi, I want to build an app", none⟩ = Except.ok ⟨greetingReply⟩) := by
  refine ⟨?_, ?_, ?_, ?_, ?_, by decide⟩
  · intro l hg
    unfold selectReply
    rw [if_pos hg]
  · intro l hg hb
    unfold selectReply
    rw [if_neg (by simp [hg]), if_pos hb]
  · intro l hg hb hp
    unfold selectReply
    rw [if_neg (by simp [hg]), if_neg (by simp [hb]), if_pos hp]
  · intro l hg hb hp
    unfold selectReply
    rw [if_neg (by simp [hg]), if_neg (by simp [hb]), if_neg (by simp [hp])]
  · intro msg hg
    have hne : pyStrip msg ≠ "" := by
      intro h0
      rw [h0] at hg
      exact absurd hg (by decide)
    rw [chat_endpoint_ok hne]
    unfold selectReply
    rw [if_pos hg]
    rfl

/-- Witness for C4: the greeting branch at a concrete lowered message. -/
theorem chat_keyword_priority_witness : selectReply "hi there" = greetingReply :=
  chat_keyword_priority.1 "hi there" (by decide)

/-- C5 counterexample: with message "plan" and history entry
{role: user, content: ""}, the claimed condition holds (the content differs
from the message and is shorter than 120 characters), yet no note is
appended: the code additionally requires the content to be non-empty. -/
theorem chat_note_empty_content_cex :
    (("" : String) ≠ pyStrip "plan" ∧ pyLen "" < 120 ∧
      lastUserContent [⟨"user", ""⟩] = some "") ∧
    chat_endpoint ⟨"plan", some [⟨"user", ""⟩]⟩ = Except.ok ⟨defaultReply⟩ ∧
    List.isSuffixOf (noteFor "").data defaultReply.data = false := by decide

/-- C5 (amended): for every successful chat response, the note for the most
recent user history content is appended exactly when that content is
non-empty, differs from the trimmed current message, and is shorter than 120
characters; otherwise the reply is the bare selected reply. -/
theorem chat_note_characterization (req : ChatRequest) (r : ChatResponse)
    (hr : chat_endpoint req = Except.ok r) :
    (∀ c, lastUserContent (req.history.getD []) = some c →
      c ≠ "" → c ≠ pyStrip req.message → pyLen c < 120 →
      r.reply = selectReply (pyLower (pyStrip req.message)) ++ noteFor c) ∧
    ((∀ c, lastUserContent (req.history.getD []) = some c →
        ¬(c ≠ "" ∧ c ≠ pyStrip req.message ∧ pyLen c < 120)) →
      r.reply = selectReply (pyLower (pyStrip req.message))) := by
  by_cases h : pyStrip req.message = ""
  · unfold chat_endpoint at hr
    rw [if_pos h] at hr
    exact absurd hr (by simp)
  · rw [chat_endpoint_ok h] at hr
    injection hr with hr2
    have hrr : r.reply =
        augmentedReply (selectReply (pyLower (pyStrip req.message)))
          (pyStrip req.message) req.history := by
      rw [← hr2]
    constructor
    · intro c hc h1 h2 h3
      rw [hrr]
      cases hh : req.history with
      | none =>
        rw [hh] at hc
        simp [lastUserContent] at hc
      | some hist =>
        rw [hh] at hc
        simp only [Option.getD_some] at hc
        exact augmentedReply_append hc h1 h2 h3
    · intro hnone
      rw [hrr]
      exact augmentedReply_base hnone

/-- Witness for C5 at the spec's concrete example. -/
theorem chat_note_characterization_witness :
    ChatResponse.reply ⟨defaultReply ++ noteFor "make it fast"⟩ =
      selectReply (pyLower (pyStrip "plan")) ++ noteFor "make it fast" :=
  (chat_note_characterization ⟨"plan", some [⟨"user", "make it fast"⟩]⟩
      ⟨defaultReply ++ noteFor "make it fast"⟩ (by decide)).1
    "make it fast" (by decide) (by decide) (by decide) (by decide)

/-- C6: a request whose idea is empty after trimming is rejected with the
400 client error, and the run attempts no persistence at all. -/
theorem plan_empty_idea_rejected (store : Generation → DBOutcome) (req : PlanRequest)
    (h : pyStrip req.idea = "") :
    plan_run store req = ⟨Except.error ⟨400, "Idea is required"⟩, []⟩ := by
  simp [plan_run, h]

/-- Witness for C6 at an all-whitespace idea. -/
theorem plan_empty_idea_rejected_witness :
    plan_run (fun _ => DBOutcome.ok "1") ⟨"   ", none⟩ =
      ⟨Except.error ⟨400, "Idea is required"⟩, []⟩ :=
  plan_empty_idea_rejected (fun _ => DBOutcome.ok "1") ⟨"   ", none⟩ (by decide)

/-- C7: any two successful plan responses agree on every plan field other
than the summary and the features: frontend, backend and next_steps are
fixed literals independent of the request and of the store. -/
theorem plan_fixed_fields (store store' : Generation → DBOutcome)
    (req req' : PlanRequest)
    (h : pyStrip req.idea ≠ "") (h' : pyStrip req'.idea ≠ "") :
    ∃ r r', plan_endpoint store req = Except.ok r ∧
      plan_endpoint store' req' = Except.ok r' ∧
      r.plan.frontend = r'.plan.frontend ∧
      r.plan.backend = r'.plan.backend ∧
      r.plan.next_steps = r'.plan.next_steps := by
  refine ⟨⟨(match store (planGen req) with
      | DBOutcome.ok i => i
      | DBOutcome.err => "no-db"), "planned",
      mkPlan (pyStrip req.idea) (req.features.getD [])⟩,
    ⟨(match store' (planGen req') with
      | DBOutcome.ok i => i
      | DBOutcome.err => "no-db"), "planned",
      mkPlan (pyStrip req'.idea) (req'.features.getD [])⟩,
    ?_, ?_, rfl, rfl, rfl⟩
  · show (plan_run store req).result = _
    rw [plan_run_eq store req h]
  · show (plan_run store' req').result = _
    rw [plan_run_eq store' req' h']

/-- Witness for C7 at two concrete requests and stores. -/
theorem plan_fixed_fields_witness :
    ∃ r r', plan_endpoint (fun _ => DBOutcome.ok "1") ⟨"a shop", none⟩ = Except.ok r ∧
      plan_endpoint (fun _ => DBOutcome.err) ⟨"a blog", some ["rss"]⟩ = Except.ok r' ∧
      r.plan.frontend = r'.plan.frontend ∧
      r.plan.backend = r'.plan.backend ∧
      r.plan.next_steps = r'.plan.next_steps :=
  plan_fixed_fields (fun _ => DBOutcome.ok "1") (fun _ => DBOutcome.err)
    ⟨"a shop", none⟩ ⟨"a blog", some ["rss"]⟩ (by decide) (by decide)

/-- C8: the chat endpoint is deterministic — its result is fully determined
by the message and the history, with no other dependence. -/
theorem chat_deterministic (r1 r2 : ChatRequest) (hm : r1.message = r2.message)
    (hh : r1.history = r2.history) : chat_endpoint r1 = chat_endpoint r2 := by
  cases r1
  cases r2
  cases hm
  cases hh
  rfl

/-- Witness for C8 at a concrete pair of runs. -/
theorem chat_deterministic_witness :
    chat_endpoint ⟨"hi", none⟩ = chat_endpoint ⟨"hi", none⟩ :=
  chat_deterministic ⟨"hi", none⟩ ⟨"hi", none⟩ rfl rfl

/-- C9: the plan endpoint uses the trimmed idea everywhere: the summary is
built from the trimmed idea, and the single persisted Generation record
stores the trimmed idea, not the raw request string. -/
theorem plan_uses_trimmed_idea (store : Generation → DBOutcome) (req : PlanRequest)
    (h : pyStrip req.idea ≠ "") :
    ∃ r, plan_endpoint store req = Except.ok r ∧
      r.plan.summary = "Plan to build: " ++ pyStrip req.idea ∧
      (plan_run store req).attempts = [planGen req] ∧
      (planGen req).idea = pyStrip req.idea := by
  refine ⟨⟨(match store (planGen req) with
      | DBOutcome.ok i => i
      | DBOutcome.err => "no-db"), "planned",
      mkPlan (pyStrip req.idea) (req.features.getD [])⟩, ?_, rfl, ?_, rfl⟩
  · show (plan_run store req).result = _
    rw [plan_run_eq store req h]
  · rw [plan_run_eq store req h]

/-- Witness for C9 at a padded concrete idea. -/
theorem plan_uses_trimmed_idea_witness :
    ∃ r, plan_endpoint (fun _ => DBOutcome.ok "9") ⟨"  cool app  ", none⟩ = Except.ok r ∧
      r.plan.summary = "Plan to build: " ++ pyStrip "  cool app  " ∧
      (plan_run (fun _ => DBOutcome.ok "9") ⟨"  cool app  ", none⟩).attempts =
        [planGen ⟨"  cool app  ", none⟩] ∧
      (planGen ⟨"  cool app  ", none⟩).idea = pyStrip "  cool app  " :=
  plan_uses_trimmed_idea (fun _ => DBOutcome.ok "9") ⟨"  cool app  ", none⟩ (by decide)

/-- C10: the note condition compares the raw, untrimmed, case-preserved
history content with the trimmed current message by exact equality, so a
history entry equal to the message up to whitespace or case still gets a
note — concretely for history content " plan " and for "PLAN" with
message "plan". -/
theorem chat_compares_raw_history (msg c : String) (hmsg : pyStrip msg ≠ "")
    (h1 : c ≠ "") (h2 : c ≠ pyStrip msg) (h3 : pyLen c < 120) :
    chat_endpoint ⟨msg, some [⟨"user", c⟩]⟩ =
      Except.ok ⟨selectReply (pyLower (pyStrip msg)) ++ noteFor c⟩ ∧
    chat_endpoint ⟨"plan", some [⟨"user", " plan "⟩]⟩ =
      Except.ok ⟨defaultReply ++ noteFor " plan "⟩ ∧
    chat_endpoint ⟨"plan", some [⟨"user", "PLAN"⟩]⟩ =
      Except.ok ⟨defaultReply ++ noteFor "PLAN"⟩ := by
  refine ⟨?_, by decide, by decide⟩
  rw [chat_endpoint_ok hmsg]
  have hc : lastUserContent [⟨"user", c⟩] = some c := by simp [lastUserContent]
  rw [augmentedReply_append hc h1 h2 h3]

/-- Witness for C10 at the whitespace-padded history entry. -/
theorem chat_compares_raw_history_witness :
    chat_endpoint ⟨"plan", some [⟨"user", " plan "⟩]⟩ =
      Except.ok ⟨selectReply (pyLower (pyStrip "plan")) ++ noteFor " plan "⟩ ∧
    chat_endpoint ⟨"plan", some [⟨"user", " plan "⟩]⟩ =
      Except.ok ⟨defaultReply ++ noteFor " plan "⟩ ∧
    chat_endpoint ⟨"plan", some [⟨"user", "PLAN"⟩]⟩ =
      Except.ok ⟨defaultReply ++ noteFor "PLAN"⟩ :=
  chat_compares_raw_history "plan" " plan " (by decide) (by decide) (by decide) (by decide)

end Backend
